import Mathlib

/-!
Verification of the `pet_center_count` notebook
(`notebooks/python_module/10_tracking_diagnostics/pet_center_count.ipynb`).

The notebook loads two eddy observation sets (anticyclonic `a`, cyclonic `c`),
bins their centers into 2-D masked count grids with `grid_count`, composes the
two grids (ratio, masked sum) with numpy masked-array operations, and renders
four panels.  The library calls (`load_file`, `period`, `grid_count`, `display`)
are external to the visible sources and are modelled from the specification;
the compositor cell (mask manipulation, in-place add, ratio) is embedded
directly from the notebook source with numpy masked-array semantics.
-/

namespace PetCenterCount

/-- One eddy observation: the center position (longitude, latitude). -/
structure EddyObs where
  lon : ℚ
  lat : ℚ
deriving DecidableEq

/-- Modelled from the spec: `TrackEddiesObservations` (class
`py_eddy_tracker.observations.tracking.TrackEddiesObservations`, not under the
visible sources).  An ordered collection of eddy track records together with
the dataset period `(t0, t1)` in days. -/
structure TrackEddiesObservations where
  obs : List EddyObs
  t0 : ℚ
  t1 : ℚ

/-- Modelled from the spec: the `period` property, the `(t0, t1)` time span of
the dataset. -/
def TrackEddiesObservations.period (o : TrackEddiesObservations) : ℚ × ℚ :=
  (o.t0, o.t1)

/-- One axis of the bin specification, given in the notebook as a
`(start, stop, step)` triple. -/
structure AxisBins where
  start : ℚ
  stop : ℚ
  step : ℚ
deriving DecidableEq

/-- Number of bins along one axis: `(stop - start) / step` in exact
arithmetic, rounded up as `numpy.arange` would. -/
def AxisBins.nbins (a : AxisBins) : ℤ :=
  ⌈(a.stop - a.start) / a.step⌉

/-- A numpy masked 2-D array over a longitude/latitude bin lattice: per-cell
data together with a per-cell mask (`true` = masked / undefined).  The data
held under a masked cell is irrelevant to every observable use. -/
structure MaskedGrid where
  xBins : AxisBins
  yBins : AxisBins
  data : Nat → Nat → ℚ
  mask : Nat → Nat → Bool

/-- The shape of a grid, determined by its bin specification. -/
def MaskedGrid.shape (g : MaskedGrid) : ℤ × ℤ :=
  (g.xBins.nbins, g.yBins.nbins)

/-- Bin index of a coordinate along one axis. -/
def binIndex (a : AxisBins) (v : ℚ) : ℤ :=
  ⌊(v - a.start) / a.step⌋

/-- Whether a coordinate falls in bin `i` of an axis (inside the axis range
and with the matching bin index). -/
def inBin (a : AxisBins) (i : Nat) (v : ℚ) : Bool :=
  decide (a.start ≤ v) && decide (v < a.stop) && (binIndex a v == (i : ℤ))

/-- Number of observation centers falling in cell `(i, j)` of the lattice. -/
def cellCount (o : TrackEddiesObservations) (bx bY : AxisBins)
    (i j : Nat) : Nat :=
  (o.obs.filter (fun e => inBin bx i e.lon && inBin bY j e.lat)).length

/-- Modelled from the spec: `grid_count` (method of `TrackEddiesObservations`,
not under the visible sources) produces a 2-D occupancy grid of eddy-center
counts over the bin lattice; bins with zero observations are masked rather
than zero, to be distinguished from true zero-density regions. -/
def TrackEddiesObservations.grid_count (o : TrackEddiesObservations)
    (bins : AxisBins × AxisBins) : MaskedGrid :=
  { xBins := bins.1
    yBins := bins.2
    data := fun i j => (cellCount o bins.1 bins.2 i j : ℚ)
    mask := fun i j => cellCount o bins.1 bins.2 i j == 0 }

/-! ## numpy masked-array operations used by the compositor cell -/

/-- numpy masked-array elementwise division (`x / y`): allocates a fresh
array; the result is masked where either operand is masked or where the
divisor is zero (`numpy.ma` domain masking via `_DomainSafeDivide`) — no
exception is raised.  The data stored under a masked cell is never observed;
we use total rational division there. -/
def maDiv (x yG : MaskedGrid) : MaskedGrid :=
  { x with
    data := fun i j => x.data i j / yG.data i j
    mask := fun i j => x.mask i j || yG.mask i j || (yG.data i j == 0) }

/-- numpy masked-array boolean-indexed assignment (`x[p] = v`): at every cell
selected by `p` the data is set to `v` and the mask is cleared. -/
def maSetWhere (x : MaskedGrid) (p : Nat → Nat → Bool) (v : ℚ) : MaskedGrid :=
  { x with
    data := fun i j => if p i j then v else x.data i j
    mask := fun i j => if p i j then false else x.mask i j }

/-- numpy masked-array in-place addition (`x += y`): the mask becomes the OR
of the two masks, and wherever the resulting mask is clear the data is
incremented by `y`'s data (masked positions add zero, per
`MaskedArray.__iadd__`, which replaces `y`'s data by `0` under the updated
mask before adding). -/
def maIadd (x yG : MaskedGrid) : MaskedGrid :=
  { x with
    data := fun i j =>
      if x.mask i j || yG.mask i j then x.data i j
      else x.data i j + yG.data i j
    mask := fun i j => x.mask i j || yG.mask i j }

/-- numpy masked-array wholesale mask assignment (`x.mask = m`). -/
def maSetMask (x : MaskedGrid) (m : Nat → Nat → Bool) : MaskedGrid :=
  { x with mask := m }

/-- The compositor cell of the notebook, transcribed statement by statement
from the source (`g_c` is the cyclonic grid, `g_a` the anticyclonic grid):

    ratio = g_c.vars[COUNT] / g_a.vars[COUNT]
    m_c = g_c.vars[COUNT].mask
    m = m_c & g_a.vars[COUNT].mask
    g_c.vars[COUNT][m_c] = 0
    g_c.vars[COUNT] += g_a.vars[COUNT]
    g_c.vars[COUNT].mask = m

Returns the pair (combined grid left in `g_c`, ratio grid).  The ratio is a
fresh array computed before the in-place mutation of `g_c`, so it holds the
original cyclonic counts. -/
def compositor (gc ga : MaskedGrid) : MaskedGrid × MaskedGrid :=
  let ratio := maDiv gc ga
  let mC := gc.mask
  let m := fun i j => mC i j && ga.mask i j
  let gc1 := maSetWhere gc mC 0
  let gc2 := maIadd gc1 ga
  let gc3 := maSetMask gc2 m
  (gc3, ratio)

/-! ## Notebook parameters (cell 4) -/

/-- Bin step size: `step = 0.125`. -/
def step : ℚ := 1 / 8

/-- Bin specification: `bins = ((-10, 37, step), (30, 46, step))`. -/
def bins : AxisBins × AxisBins :=
  (⟨-10, 37, step⟩, ⟨30, 46, step⟩)

/-- The notebook's normalization factor `1 / (step ** 2 * (t1 - t0))`. -/
def factor (t0 t1 : ℚ) : ℚ :=
  1 / (step ^ 2 * (t1 - t0))

/-! ## Concrete grids used to instantiate theorems with hypotheses -/

/-- A concrete cyclonic grid: every cell unmasked with count 3. -/
def gCex : MaskedGrid :=
  ⟨bins.1, bins.2, fun _ _ => 3, fun _ _ => false⟩

/-- A concrete anticyclonic grid: every cell unmasked with count 2. -/
def gAex : MaskedGrid :=
  ⟨bins.1, bins.2, fun _ _ => 2, fun _ _ => false⟩

/-- A concrete anticyclonic grid holding an unmasked zero count. -/
def gAzero : MaskedGrid :=
  ⟨bins.1, bins.2, fun _ _ => 0, fun _ _ => false⟩

/-! ## Claims about the compositor (notebook cell 6) -/

/-- Claim C1: after the compositor's mask manipulation, the combined count
grid's mask equals the elementwise logical AND of the cyclonic grid's original
mask and the anticyclonic grid's mask — a cell is masked in the combined grid
iff it was masked in both input grids. -/
theorem combined_mask_eq_and (gc ga : MaskedGrid) (i j : Nat) :
    (compositor gc ga).1.mask i j = (gc.mask i j && ga.mask i j) := rfl

/-- Claim C2: for every cell unmasked in the cyclonic input grid, the combined
grid's value there equals the cyclonic count plus the anticyclonic count,
where a masked anticyclonic cell contributes zero. -/
theorem combined_value_unmasked_cyclonic (gc ga : MaskedGrid) (i j : Nat)
    (h : gc.mask i j = false) :
    (compositor gc ga).1.data i j
      = gc.data i j + (if ga.mask i j then 0 else ga.data i j) := by
  cases hm : ga.mask i j <;>
    simp [compositor, maSetMask, maIadd, maSetWhere, h, hm]

/-- Witness for C2 at a concrete cell of concrete grids. -/
theorem combined_value_unmasked_cyclonic_witness :
    gCex.mask 0 0 = false ∧
    (compositor gCex gAex).1.data 0 0
      = gCex.data 0 0 + (if gAex.mask 0 0 then 0 else gAex.data 0 0) :=
  ⟨rfl, combined_value_unmasked_cyclonic gCex gAex 0 0 rfl⟩

/-- Claim C3: wherever both input grids are unmasked and the anticyclonic
count is nonzero, the ratio grid holds the original cyclonic count divided by
the anticyclonic count, and is unmasked there.  The ratio is computed from the
cyclonic grid's values before the in-place mutation that turns its storage
into the combined count (the division allocates a fresh array, so the
mutation cannot reach it). -/
theorem ratio_uses_original_counts (gc ga : MaskedGrid) (i j : Nat)
    (hc : gc.mask i j = false) (ha : ga.mask i j = false)
    (hz : ga.data i j ≠ 0) :
    (compositor gc ga).2.data i j = gc.data i j / ga.data i j ∧
    (compositor gc ga).2.mask i j = false := by
  refine ⟨rfl, ?_⟩
  simp [compositor, maDiv, hc, ha, hz]

/-- Witness for C3 at a concrete cell of concrete grids. -/
theorem ratio_uses_original_counts_witness :
    gCex.mask 0 0 = false ∧ gAex.mask 0 0 = false ∧ gAex.data 0 0 ≠ 0 ∧
    ((compositor gCex gAex).2.data 0 0 = gCex.data 0 0 / gAex.data 0 0 ∧
      (compositor gCex gAex).2.mask 0 0 = false) :=
  ⟨rfl, rfl, by norm_num [gAex],
    ratio_uses_original_counts gCex gAex 0 0 rfl rfl (by norm_num [gAex])⟩

/-- Claim C4 (counterexample): an anticyclonic count of zero at an unmasked
cell does not halt the notebook.  At a concrete input where the anticyclonic
grid is unmasked with value 0 at cell (0,0), the ratio statement completes —
numpy masked-array division masks the zero-divisor cell rather than raising —
and the subsequent combined grid is still computed (value 3 + 0 = 3 at that
cell). -/
theorem divide_by_zero_no_failure_counterexample :
    gAzero.mask 0 0 = false ∧ gAzero.data 0 0 = 0 ∧
    (compositor gCex gAzero).2.mask 0 0 = true ∧
    (compositor gCex gAzero).1.data 0 0 = 3 ∧
    (compositor gCex gAzero).1.mask 0 0 = false := by
  refine ⟨rfl, rfl, rfl, ?_, rfl⟩
  norm_num [compositor, maSetMask, maIadd, maSetWhere, gCex, gAzero]

/-- Claim C4 (amended): a division by zero in the ratio computation does not
raise and is not a failure to recover from — numpy masked-array division
masks every cell whose divisor is zero, so the ratio grid is defined (with
that cell masked) and execution continues to the next statement. -/
theorem divide_by_zero_masks_cell (gc ga : MaskedGrid) (i j : Nat)
    (hz : ga.data i j = 0) :
    (compositor gc ga).2.mask i j = true := by
  simp [compositor, maDiv, hz]

/-- Witness for the amended C4 at a concrete cell of concrete grids. -/
theorem divide_by_zero_masks_cell_witness :
    gAzero.data 0 0 = 0 ∧ (compositor gCex gAzero).2.mask 0 0 = true :=
  ⟨rfl, divide_by_zero_masks_cell gCex gAzero 0 0 rfl⟩

/-! ## The Binner (spec section 4.2) -/

/-- Modelled from the spec: the Binner component — "Input: observation set,
bin edges (two axes, each as start/stop/step), normalization factor, output
variable name.  Output: a masked 2-D count grid", "normalized by spatial cell
area and time span".  It delegates to `grid_count` for the occupancy counts
and scales the values by the factor. -/
def binner (o : TrackEddiesObservations) (b : AxisBins × AxisBins)
    (f : ℚ) : MaskedGrid :=
  let g := o.grid_count b
  { g with data := fun i j => g.data i j * f }

/-- Claim C5: with the notebook's factor `1 / (step ** 2 * (t1 - t0))` where
`(t0, t1)` is the dataset period, the Binner's output values are the raw
occupancy counts divided by `step ^ 2 * (t1 - t0)` — normalization by spatial
cell area (`step ^ 2`) and time span (`t1 - t0`) — while the mask still marks
exactly the empty bins. -/
theorem binner_output_normalized (o : TrackEddiesObservations) (i j : Nat) :
    (binner o bins (factor o.period.1 o.period.2)).data i j
      = (cellCount o bins.1 bins.2 i j : ℚ)
          / (step ^ 2 * (o.period.2 - o.period.1)) ∧
    factor o.period.1 o.period.2
      = 1 / (step ^ 2 * (o.period.2 - o.period.1)) ∧
    (binner o bins (factor o.period.1 o.period.2)).mask i j
      = (cellCount o bins.1 bins.2 i j == 0) := by
  refine ⟨?_, rfl, rfl⟩
  simp only [binner, TrackEddiesObservations.grid_count, factor,
    TrackEddiesObservations.period, mul_one_div]

/-- Claim C6: grids produced from the same bin specification share shape and
bin edges, and the compositor's combined grid keeps the cyclonic grid's shape
and edges; this holds for every bin configuration, in particular the
notebook's `((-10, 37, step), (30, 46, step))`. -/
theorem grids_share_shape_and_edges (a c : TrackEddiesObservations)
    (b : AxisBins × AxisBins) :
    (a.grid_count b).xBins = (c.grid_count b).xBins ∧
    (a.grid_count b).yBins = (c.grid_count b).yBins ∧
    (compositor (c.grid_count b) (a.grid_count b)).1.xBins
      = (c.grid_count b).xBins ∧
    (compositor (c.grid_count b) (a.grid_count b)).1.yBins
      = (c.grid_count b).yBins ∧
    (a.grid_count b).shape = (c.grid_count b).shape ∧
    (compositor (c.grid_count b) (a.grid_count b)).1.shape
      = (c.grid_count b).shape :=
  ⟨rfl, rfl, rfl, rfl, rfl, rfl⟩

/-- Claim C7: with the notebook's bin specification (longitude -10 to 37 and
latitude 30 to 46, both with step 0.125), every count grid has shape
(376, 128), the exact-arithmetic quotients (37 - (-10)) / 0.125 and
(46 - 30) / 0.125. -/
theorem notebook_grid_shape (o : TrackEddiesObservations) :
    (o.grid_count bins).shape = (376, 128) ∧
    (37 - (-10 : ℚ)) / step = 376 ∧ ((46 : ℚ) - 30) / step = 128 := by
  refine ⟨?_, by norm_num [step], by norm_num [step]⟩
  show (⌈((37 : ℚ) - -10) / (1 / 8)⌉, ⌈((46 : ℚ) - 30) / (1 / 8)⌉)
      = ((376 : ℤ), (128 : ℤ))
  norm_num

/-! ## The notebook pipeline as explicit state passing (cells 4 and 6) -/

/-- The notebook's variables: the two observation sets and the grid variables
produced by the plotting cell (absent before it runs). -/
structure NotebookState where
  a : TrackEddiesObservations
  c : TrackEddiesObservations
  g_a : Option MaskedGrid
  g_c : Option MaskedGrid
  ratio : Option MaskedGrid

/-- Modelled from the spec: `load_file` (the Loader) materializes a stored
observation set into memory; the dataset read from disk is the parameter. -/
def load_file (d : TrackEddiesObservations) : TrackEddiesObservations := d

/-- Cell 4 of the notebook: load the anticyclonic and cyclonic observation
sets; no grid exists yet. -/
def cell4 (dataA dataC : TrackEddiesObservations) : NotebookState :=
  { a := load_file dataA
    c := load_file dataC
    g_a := none
    g_c := none
    ratio := none }

/-- Cell 6 of the notebook: compute both count grids with `grid_count`, run
the compositor (ratio, mask manipulation, in-place sum), and finally overwrite
the `g_c` count variable with the ratio array for the last panel
(`g_c.vars[COUNT] = ratio`).  Every step only reads `a` and `c`. -/
def cell6 (s : NotebookState) : NotebookState :=
  let gA := s.a.grid_count bins
  let gC := s.c.grid_count bins
  let pr := compositor gC gA
  { s with
    g_a := some gA
    g_c := some { pr.1 with data := pr.2.data, mask := pr.2.mask }
    ratio := some pr.2 }

/-- Claim C8: the observation sets are loaded exactly once in cell 4 and never
modified afterwards — the plotting cell only reads them, so after the whole
pipeline the stored observation sets are exactly the loaded ones, and cell 6
leaves the `a` and `c` variables of any state untouched. -/
theorem observations_unmodified (dataA dataC : TrackEddiesObservations) :
    (cell6 (cell4 dataA dataC)).a = load_file dataA ∧
    (cell6 (cell4 dataA dataC)).c = load_file dataC ∧
    ∀ s : NotebookState, (cell6 s).a = s.a ∧ (cell6 s).c = s.c :=
  ⟨rfl, rfl, fun _ => ⟨rfl, rfl⟩⟩

/-! ## The Renderer (plotting cell configuration) -/

/-- Colormap names appearing in the notebook. -/
inductive Cmap
  | terrainR
  | coolwarmR
deriving DecidableEq

/-- Color scale of a pcolormesh call: matplotlib's default linear `Normalize`,
or `LogNorm`. -/
inductive ColorScale
  | linear
  | logScale
deriving DecidableEq

/-- The per-axes settings the styling loop touches. -/
structure AxesConfig where
  xlim : ℚ × ℚ
  ylim : ℚ × ℚ
  equalAspect : Bool
  gridOn : Bool
deriving DecidableEq

/-- The styling loop at the end of the plotting cell, applied to each of the
four axes: `set_aspect` equal, `set_xlim(-6, 36.5)`, `set_ylim(30, 46)`,
`grid()`. -/
def styleAxes (ax : AxesConfig) : AxesConfig :=
  { ax with
    equalAspect := true
    xlim := (-6, 36.5)
    ylim := (30, 46)
    gridOn := true }

/-- Arguments of a `display` (pcolormesh) call in the notebook. -/
structure DisplayArgs where
  cmap : Cmap
  vmin : ℚ
  vmax : ℚ
  factor : ℚ
  scale : ColorScale
deriving DecidableEq

/-- `kwargs_pcolormesh` from cell 4: `cmap="terrain_r", vmin=0, vmax=2,
factor=1 / (step ** 2 * (t1 - t0)), name="count"`; no `norm` keyword is
passed, so the color scale is matplotlib's default linear normalization. -/
def kwargs_pcolormesh (f : ℚ) : DisplayArgs :=
  ⟨Cmap.terrainR, 0, 2, f, ColorScale.linear⟩

/-- The ratio panel's display call: `name="count", vmin=0.1, vmax=10,
norm=LogNorm(), cmap='coolwarm_r'`; no factor is passed, so the display
default of 1 applies. -/
def ratioDisplayArgs : DisplayArgs :=
  ⟨Cmap.coolwarmR, 0.1, 10, 1, ColorScale.logScale⟩

/-- The four panels of the figure, in drawing order. -/
inductive PanelId
  | antic
  | cyc
  | allEddies
  | ratioPanel
deriving DecidableEq

/-- The display call issued for each panel: the three count panels reuse
`kwargs_pcolormesh`, the ratio panel uses its own arguments. -/
def panelArgs (f : ℚ) : PanelId → DisplayArgs
  | PanelId.antic => kwargs_pcolormesh f
  | PanelId.cyc => kwargs_pcolormesh f
  | PanelId.allEddies => kwargs_pcolormesh f
  | PanelId.ratioPanel => ratioDisplayArgs

/-- Claim C9: the styling loop gives all four axes the same x limits
(-6, 36.5), y limits (30, 46), equal aspect and gridlines, whatever their
prior configuration; the three count panels are drawn with the linear scale,
vmin 0 and vmax 2, and the ratio panel with the logarithmic scale, vmin 0.1
and vmax 10. -/
theorem panels_configured_identically
    (axA axC axAll axRatio : AxesConfig) (f : ℚ) :
    styleAxes axA = ⟨(-6, 36.5), (30, 46), true, true⟩ ∧
    styleAxes axC = ⟨(-6, 36.5), (30, 46), true, true⟩ ∧
    styleAxes axAll = ⟨(-6, 36.5), (30, 46), true, true⟩ ∧
    styleAxes axRatio = ⟨(-6, 36.5), (30, 46), true, true⟩ ∧
    (panelArgs f PanelId.antic).scale = ColorScale.linear ∧
    (panelArgs f PanelId.antic).vmin = 0 ∧
    (panelArgs f PanelId.antic).vmax = 2 ∧
    (panelArgs f PanelId.cyc).scale = ColorScale.linear ∧
    (panelArgs f PanelId.cyc).vmin = 0 ∧
    (panelArgs f PanelId.cyc).vmax = 2 ∧
    (panelArgs f PanelId.allEddies).scale = ColorScale.linear ∧
    (panelArgs f PanelId.allEddies).vmin = 0 ∧
    (panelArgs f PanelId.allEddies).vmax = 2 ∧
    (panelArgs f PanelId.ratioPanel).scale = ColorScale.logScale ∧
    (panelArgs f PanelId.ratioPanel).vmin = 0.1 ∧
    (panelArgs f PanelId.ratioPanel).vmax = 10 :=
  ⟨rfl, rfl, rfl, rfl, rfl, rfl, rfl, rfl, rfl, rfl, rfl, rfl, rfl,
    rfl, rfl, rfl⟩

/-- The display arguments the notebook uses for each panel of a run on
observation sets `a` and `c`: `kwargs_pcolormesh` is built once in cell 4
from `t0, t1 = a.period` and reused for all three count panels — so the
cyclonic set `c` is deliberately not consulted. -/
def notebookPanelArgs (a : TrackEddiesObservations)
    (_c : TrackEddiesObservations) : PanelId → DisplayArgs :=
  panelArgs (factor a.period.1 a.period.2)

/-- Claim C10: the normalization factor of every count panel — including the
cyclonic and combined ones — is `1 / (step ^ 2 * (t1 - t0))` for
`(t0, t1) = a.period`, the anticyclonic dataset's period; the cyclonic
dataset's own period plays no role, so the arguments are unchanged if the
cyclonic set is replaced by any other. -/
theorem count_panels_use_anticyclonic_period
    (a c : TrackEddiesObservations) :
    (notebookPanelArgs a c PanelId.cyc).factor
      = 1 / (step ^ 2 * (a.period.2 - a.period.1)) ∧
    (notebookPanelArgs a c PanelId.allEddies).factor
      = 1 / (step ^ 2 * (a.period.2 - a.period.1)) ∧
    (notebookPanelArgs a c PanelId.antic).factor
      = 1 / (step ^ 2 * (a.period.2 - a.period.1)) ∧
    ∀ cOther : TrackEddiesObservations,
      notebookPanelArgs a c = notebookPanelArgs a cOther :=
  ⟨rfl, rfl, rfl, fun _ => rfl⟩

end PetCenterCount
